import Mathlib

/-!
Verification of the flickr-exporter synchronization job.

Shallow embedding of `src/src/index.ts` (the `photoUploader` cloud function and
its helper `downloadImage`), together with the checkpoint computation of the
observed variant `src/unnamed/part_000`.

Modelling choices:
* JavaScript thrown/rejected values are modelled by `Err`: `Err.error m` is an
  `Error` object whose `message` property is `m`; `Err.str s` is a plain string
  used as rejection value (as `downloadImage` does with `reject(err.message)`).
  Reading `.message` of a plain string yields `undefined`, modelled by `none`.
* The three external collaborators (Firebase realtime database, Flickr, Ghost)
  and the https/fs libraries are modelled by an `Env` of deterministic
  functions returning `Except String α`, the `String` being the `message` of
  the `Error` the library call would reject with.
* Side effects are recorded in a `Trace`: the set of temporary files currently
  present on disk, and the lists of downloads, image uploads, tag-creation
  calls, created posts, photo-status writes and checkpoint writes, each in
  call order.  A step of the job is a function `Trace → Trace × Except Err α`.
* `String.prototype.split` and the default `Array.prototype.sort` comparator
  (UTF-16 code-unit lexicographic order) are modelled by `splitChar` and
  `jsLe`; `Date.prototype.toISOString` is supplied by the environment as
  `toISOString : Int → String` applied to milliseconds.
* In `downloadImage`'s error handler the cleanup `fsPromises.unlink` is
  assumed to succeed (if it rejected, the surrounding promise would never
  settle and the run would hang forever, which has no counterpart in a
  terminating semantics).
-/

/-- A JavaScript thrown/rejected value: either an `Error` object carrying a
`message`, or a plain string (which has no `message` property). -/
inductive Err where
  | error (message : String)
  | str (s : String)
deriving Repr, DecidableEq

/-- The `.message` property access performed by the `catch` block
(`(e as any).message`): defined on `Error` objects, `undefined` on strings. -/
def errMessage : Err → Option String
  | .error m => some m
  | .str _ => none

/-- A Flickr photo as used by the job (fields of the `extras` list that the
code reads).  `description` is `some c` when the photo has a description
object `{_content: c}` and `none` when the field is absent, in which case the
dereference `photo.description._content` throws a `TypeError`. -/
structure Photo where
  id : String
  url_o : String
  title : String
  description : Option String
  dateupload : Int
  tags : String
deriving Repr, DecidableEq

/-- The dereference `photo.description._content`: throws a `TypeError` when
the `description` field is absent. -/
def descContent (photo : Photo) : Except Err String :=
  match photo.description with
  | some c => Except.ok c
  | none => Except.error (Err.error "Cannot read properties of undefined (reading _content)")

/-- The `photoStatus` record written under `photo_status/<id>` (mirrors the
object literal built in the loop body). -/
structure PhotoStatus where
  id : String
  url_o : String
  title : String
  desc : String
  date : Int
  tags : String
  success : Bool
  error : Option String
deriving Repr, DecidableEq

/-- The truthiness test `current_status && current_status.success`. -/
def statusSuccess : Option PhotoStatus → Bool
  | some st => st.success
  | none => false

/-- The body passed to `ghost.posts.add` (with `{source: 'html'}`). -/
structure Post where
  title : String
  html : String
  status : String
  tags : List String
  feature_image : String
  published_at : String
deriving Repr, DecidableEq

/-- Observable effects of one run, in call order.  `files` is the set of
temporary files currently present on disk. -/
structure Trace where
  files : List String
  downloads : List String
  uploads : List String
  tagAdds : List String
  posts : List Post
  statusWrites : List (String × PhotoStatus)
  checkpointWrites : List Int
deriving Repr, DecidableEq

def Trace.empty : Trace := ⟨[], [], [], [], [], [], []⟩

/-- External collaborators and library behaviour.  Each fallible call returns
`Except String α`; the `String` is the `message` of the `Error` it would
reject with. -/
structure Env where
  lastCheck : Except String Int
  nowMs : Int
  getPhotos : Int → Except String (List Photo)
  getStatus : String → Except String (Option PhotoStatus)
  setStatus : String → PhotoStatus → Except String Unit
  setLastCheck : Int → Except String Unit
  httpGet : String → Except String Unit
  uploadImage : String → Except String String
  unlink : String → Except String Unit
  browseTags : Except String (List String)
  addTag : String → Except String Unit
  addPost : Post → Except String Unit
  toISOString : Int → String

/-- A step of the job: threads the effect trace and may throw. -/
def Step (α : Type) : Type := Trace → Trace × Except Err α

/-- Model of `await` on a library call that rejects with an `Error` object. -/
def liftE {α : Type} (x : Except String α) : Step α := fun tr =>
  match x with
  | Except.ok a => (tr, Except.ok a)
  | Except.error m => (tr, Except.error (Err.error m))

/-- Model of `await` on a computation that throws a JavaScript value. -/
def liftErr {α : Type} (x : Except Err α) : Step α := fun tr => (tr, x)

/-- Model of `String.prototype.split(sep)` on the character list: splits at every
occurrence of `sep`, keeping empty segments. -/
def splitCharAux (sep : Char) : List Char → List Char → List String
  | [], acc => [String.mk acc.reverse]
  | c :: cs, acc =>
    if c = sep then String.mk acc.reverse :: splitCharAux sep cs []
    else splitCharAux sep cs (c :: acc)

/-- Model of `String.prototype.split` with a one-character separator. -/
def splitChar (sep : Char) (s : String) : List String := splitCharAux sep s.toList []

/-- Model of `path.basename` on a URL: the part after the last `/`. -/
def basename (url : String) : String := (splitChar '/' url).getLastD url

/-- Code-unit lexicographic comparison on character lists, the default
`Array.prototype.sort` string comparator. -/
def charListLe : List Char → List Char → Bool
  | [], _ => true
  | _ :: _, [] => false
  | a :: as, b :: bs =>
    if a.toNat = b.toNat then charListLe as bs else decide (a.toNat < b.toNat)

/-- The default JavaScript string order used by `Array.prototype.sort()`. -/
def jsLe (a b : String) : Prop := charListLe a.toList b.toList = true

instance : DecidableRel jsLe := fun a b => by unfold jsLe; infer_instance

/-- Creating a file (`fs.createWriteStream`): a filesystem write; creating an
already-present path truncates it, it does not duplicate it. -/
def fsCreate (files : List String) (f : String) : List String :=
  if f ∈ files then files else files ++ [f]

/-- The helper `downloadImage` of `src/src/index.ts`: resolves the destination
`/tmp/<basename url>`, opens a write stream there, and performs the HTTPS
request.  On success it resolves with the destination path; on request error
it unlinks the destination and rejects with `err.message` — a plain string,
not an `Error` object. -/
def downloadImage (env : Env) (url : String) : Step String := fun tr =>
  let destination := "/tmp/" ++ basename url
  let tr1 := { tr with
    files := fsCreate tr.files destination
    downloads := tr.downloads ++ [url] }
  match env.httpGet url with
  | Except.ok _ => (tr1, Except.ok destination)
  | Except.error m =>
    ({ tr1 with files := tr1.files.erase destination }, Except.error (Err.str m))

/-- Model of `ghost.images.upload({ref: filePath, file: path.resolve(filePath)})`,
resolving with `imageUpload` whose `.url` is the hosted image URL. -/
def uploadImageOp (env : Env) (filePath : String) : Step String := fun tr =>
  match env.uploadImage filePath with
  | Except.ok url => ({ tr with uploads := tr.uploads ++ [filePath] }, Except.ok url)
  | Except.error m => (tr, Except.error (Err.error m))

/-- Model of `fsPromises.unlink(filePath)` in the loop body. -/
def unlinkOp (env : Env) (filePath : String) : Step Unit := fun tr =>
  match env.unlink filePath with
  | Except.ok _ => ({ tr with files := tr.files.erase filePath }, Except.ok ())
  | Except.error m => (tr, Except.error (Err.error m))

/-- Model of `ghost.tags.add({name: tag, slug: tag})`. -/
def addTagOp (env : Env) (tag : String) : Step Unit := fun tr =>
  match env.addTag tag with
  | Except.ok _ => ({ tr with tagAdds := tr.tagAdds ++ [tag] }, Except.ok ())
  | Except.error m => (tr, Except.error (Err.error m))

/-- Model of `ghost.posts.add(post, {source: 'html'})`. -/
def addPostOp (env : Env) (post : Post) : Step Unit := fun tr =>
  match env.addPost post with
  | Except.ok _ => ({ tr with posts := tr.posts ++ [post] }, Except.ok ())
  | Except.error m => (tr, Except.error (Err.error m))

/-- Model of `photo_status_ref.child(id).set(photoStatus)`. -/
def setStatusOp (env : Env) (id : String) (st : PhotoStatus) : Step Unit := fun tr =>
  match env.setStatus id st with
  | Except.ok _ => ({ tr with statusWrites := tr.statusWrites ++ [(id, st)] }, Except.ok ())
  | Except.error m => (tr, Except.error (Err.error m))

/-- Model of `last_check_ref.set(next_check_time)`. -/
def setLastCheckOp (env : Env) (t : Int) : Step Unit := fun tr =>
  match env.setLastCheck t with
  | Except.ok _ => ({ tr with checkpointWrites := tr.checkpointWrites ++ [t] }, Except.ok ())
  | Except.error m => (tr, Except.error (Err.error m))

/-- The sorted tag list `[...photo.tags.split(' '), 'flickr'].sort()`. -/
def computeTags (tagString : String) : List String :=
  List.insertionSort jsLe (splitChar ' ' tagString ++ ["flickr"])

/-- The tag-creation loop: `for (const tag of tags) if (!ghostTags.includes(tag))
await ghost.tags.add({name: tag, slug: tag})`. -/
def createTags (env : Env) (ghostTags : List String) : List String → Step Unit
  | [] => fun tr => (tr, Except.ok ())
  | tag :: rest => fun tr =>
    if ghostTags.contains tag then createTags env ghostTags rest tr
    else
      match addTagOp env tag tr with
      | (tr1, Except.ok _) => createTags env ghostTags rest tr1
      | (tr1, Except.error e) => (tr1, Except.error e)

/-- The `try` block of the per-photo loop in `src/src/index.ts` (lines
107–149): download, upload to Ghost, unlink the temp file, ensure all tags
exist, and create the post. -/
def attemptPublish (env : Env) (photo : Photo) : Step Unit := fun tr =>
  match downloadImage env photo.url_o tr with
  | (tr1, Except.error e) => (tr1, Except.error e)
  | (tr1, Except.ok filePath) =>
    match uploadImageOp env filePath tr1 with
    | (tr2, Except.error e) => (tr2, Except.error e)
    | (tr2, Except.ok imageUploadUrl) =>
      match unlinkOp env filePath tr2 with
      | (tr3, Except.error e) => (tr3, Except.error e)
      | (tr3, Except.ok _) =>
        let tags := computeTags photo.tags
        match liftE env.browseTags tr3 with
        | (tr4, Except.error e) => (tr4, Except.error e)
        | (tr4, Except.ok ghostTags) =>
          match createTags env ghostTags tags tr4 with
          | (tr5, Except.error e) => (tr5, Except.error e)
          | (tr5, Except.ok _) =>
            let published_at := env.toISOString (photo.dateupload * 1000)
            match liftErr (descContent photo) tr5 with
            | (tr6, Except.error e) => (tr6, Except.error e)
            | (tr6, Except.ok desc) =>
              addPostOp env
                { title := photo.title
                  html := "<p>" ++ desc ++ "</p>"
                  status := "published"
                  tags := tags
                  feature_image := imageUploadUrl
                  published_at := published_at } tr6

/-- The non-skipped part of the loop body: build `photoStatus` (this
dereferences `photo.description._content` outside the `try` block), run the
`try`/`catch`, then write the status record (also outside the `try`). -/
def processPhotoBody (env : Env) (photo : Photo) : Step Unit := fun tr =>
  match liftErr (descContent photo) tr with
  | (tr1, Except.error e) => (tr1, Except.error e)
  | (tr1, Except.ok desc) =>
    let photoStatus : PhotoStatus :=
      { id := photo.id
        url_o := photo.url_o
        title := photo.title
        desc := desc
        date := photo.dateupload
        tags := photo.tags
        success := true
        error := none }
    match attemptPublish env photo tr1 with
    | (tr2, Except.ok _) => setStatusOp env photo.id photoStatus tr2
    | (tr2, Except.error e) =>
      setStatusOp env photo.id
        { photoStatus with success := false, error := errMessage e } tr2

/-- One iteration of `for (const photo of photos)`: read the stored status,
skip when it exists with `success` truthy, otherwise run the body. -/
def processPhoto (env : Env) (photo : Photo) : Step Unit := fun tr =>
  match liftE (env.getStatus photo.id) tr with
  | (tr1, Except.error e) => (tr1, Except.error e)
  | (tr1, Except.ok current_status) =>
    if statusSuccess current_status then (tr1, Except.ok ())
    else processPhotoBody env photo tr1

/-- The whole `for (const photo of photos)` loop. -/
def processPhotos (env : Env) : List Photo → Step Unit
  | [] => fun tr => (tr, Except.ok ())
  | photo :: rest => fun tr =>
    match processPhoto env photo tr with
    | (tr1, Except.ok _) => processPhotos env rest tr1
    | (tr1, Except.error e) => (tr1, Except.error e)

/-- The checkpoint computed by `src/src/index.ts` (lines 60–62):
`Math.floor(new Date(new Date().getTime() - 24*60*60*1000).getTime() / 1000)`,
i.e. the floor of `(nowMs - 24h in ms) / 1000`. -/
def nextCheckTime (nowMs : Int) : Int := Int.fdiv (nowMs - 24 * 60 * 60 * 1000) 1000

/-- The checkpoint computed by the observed variant `src/unnamed/part_000`
(line 57): `const next_check_time = Date.now();` — the current time in
milliseconds, with no safety margin. -/
def nextCheckTimeNaive (nowMs : Int) : Int := nowMs

/-- The run of the scheduled function `photoUploader` of `src/src/index.ts`:
read the checkpoint, compute the next checkpoint, list photos uploaded since
the checkpoint, process each photo, then persist the new checkpoint. -/
def photoUploader (env : Env) : Step Unit := fun tr =>
  match liftE env.lastCheck tr with
  | (tr1, Except.error e) => (tr1, Except.error e)
  | (tr1, Except.ok last_check_time) =>
    let next_check_time := nextCheckTime env.nowMs
    match liftE (env.getPhotos last_check_time) tr1 with
    | (tr2, Except.error e) => (tr2, Except.error e)
    | (tr2, Except.ok photos) =>
      match processPhotos env photos tr2 with
      | (tr3, Except.error e) => (tr3, Except.error e)
      | (tr3, Except.ok _) => setLastCheckOp env next_check_time tr3

/-- The tag list as the specification words it: the *set* of whitespace-split
tokens united with `"flickr"`, sorted ascending.  Used only to compare the
specification's wording with `computeTags`, which is taken from the source. -/
def specTagSet (tagString : String) : List String :=
  List.insertionSort jsLe (splitChar ' ' tagString ++ ["flickr"]).dedup

/-- The `photoStatus` object literal as first built in the loop body
(before the `try` block possibly mutates it in `catch`). -/
def photoStatusRecord (photo : Photo) (d : String) : PhotoStatus :=
  { id := photo.id
    url_o := photo.url_o
    title := photo.title
    desc := d
    date := photo.dateupload
    tags := photo.tags
    success := true
    error := none }

/-- The post body submitted to `ghost.posts.add` for a photo whose
description content is `d` and whose image upload returned `hosted`. -/
def ghostPost (env : Env) (photo : Photo) (d hosted : String) : Post :=
  { title := photo.title
    html := "<p>" ++ d ++ "</p>"
    status := "published"
    tags := computeTags photo.tags
    feature_image := hosted
    published_at := env.toISOString (photo.dateupload * 1000) }

/-- The scratch destination `path.resolve('/tmp/' + path.basename(url))`. -/
def tmpDest (url : String) : String := "/tmp/" ++ basename url

/-! ### Concrete environments and photos used in witnesses and counterexamples -/

def photoA : Photo :=
  { id := "1001"
    url_o := "https://live.staticflickr.com/65535/a_o.jpg"
    title := "A"
    description := some "photo a"
    dateupload := 1650000000
    tags := "beach sunset" }

def photoNoDesc : Photo := { photoA with id := "1002", description := none }

def photoFlickrTag : Photo := { photoA with id := "1003", tags := "flickr" }

def succeededStatus : PhotoStatus :=
  { id := "1001"
    url_o := "https://live.staticflickr.com/65535/a_o.jpg"
    title := "A"
    desc := "photo a"
    date := 1650000000
    tags := "beach sunset"
    success := true
    error := none }

def envOk : Env :=
  { lastCheck := Except.ok 1649000000
    nowMs := 1700000000000
    getPhotos := fun _ => Except.ok [photoA]
    getStatus := fun _ => Except.ok none
    setStatus := fun _ _ => Except.ok ()
    setLastCheck := fun _ => Except.ok ()
    httpGet := fun _ => Except.ok ()
    uploadImage := fun _ => Except.ok "https://ghost.example/content/images/a.jpg"
    unlink := fun _ => Except.ok ()
    browseTags := Except.ok ["beach", "flickr"]
    addTag := fun _ => Except.ok ()
    addPost := fun _ => Except.ok ()
    toISOString := fun _ => "2022-04-15T05:20:00.000Z" }

def envDownloadFail : Env := { envOk with httpGet := fun _ => Except.error "socket hang up" }

def envUploadFail : Env :=
  { envOk with uploadImage := fun _ => Except.error "Request failed with status code 500" }

def envSkip : Env := { envOk with getStatus := fun _ => Except.ok (some succeededStatus) }

def envLastCheckFail : Env := { envOk with lastCheck := Except.error "PERMISSION_DENIED" }

def envListFail : Env := { envOk with getPhotos := fun _ => Except.error "Invalid API Key" }

def envNoDesc : Env := { envOk with getPhotos := fun _ => Except.ok [photoNoDesc, photoA] }

def envTagDup : Env :=
  { envOk with getPhotos := fun _ => Except.ok [photoFlickrTag], browseTags := Except.ok [] }

def envSetStatusFail : Env :=
  { envOk with setStatus := fun _ _ => Except.error "PERMISSION_DENIED" }

def envTagAddFail : Env :=
  { envOk with addTag := fun _ => Except.error "Request failed with status code 422" }

def envUnlinkFail : Env :=
  { envOk with unlink := fun _ => Except.error "EACCES: permission denied" }

/-! ### Order properties of the JavaScript string comparison -/

theorem charListLe_total : ∀ (a b : List Char), charListLe a b = true ∨ charListLe b a = true
  | [], _ => Or.inl rfl
  | _ :: _, [] => Or.inr rfl
  | x :: xs, y :: ys => by
    simp only [charListLe]
    by_cases h : x.toNat = y.toNat
    · rw [if_pos h, if_pos h.symm]
      exact charListLe_total xs ys
    · have h' : ¬ y.toNat = x.toNat := fun hh => h hh.symm
      rw [if_neg h, if_neg h']
      rcases Nat.lt_or_ge x.toNat y.toNat with hlt | hge
      · exact Or.inl (decide_eq_true hlt)
      · exact Or.inr (decide_eq_true (Nat.lt_of_le_of_ne hge h'))

theorem charListLe_trans : ∀ (a b c : List Char),
    charListLe a b = true → charListLe b c = true → charListLe a c = true
  | [], _, _, _, _ => rfl
  | _ :: _, [], _, hab, _ => by simp [charListLe] at hab
  | _ :: _, _ :: _, [], _, hbc => by simp [charListLe] at hbc
  | x :: xs, y :: ys, z :: zs, hab, hbc => by
    simp only [charListLe] at hab hbc ⊢
    by_cases hxy : x.toNat = y.toNat <;> by_cases hyz : y.toNat = z.toNat
    · rw [if_pos hxy] at hab
      rw [if_pos hyz] at hbc
      rw [if_pos (hxy.trans hyz)]
      exact charListLe_trans xs ys zs hab hbc
    · rw [if_neg hyz] at hbc
      have hxz : ¬ x.toNat = z.toNat := by rw [hxy]; exact hyz
      rw [if_neg hxz, hxy]
      exact hbc
    · rw [if_neg hxy] at hab
      have hxz : ¬ x.toNat = z.toNat := by rw [← hyz]; exact hxy
      rw [if_neg hxz, ← hyz]
      exact hab
    · rw [if_neg hxy] at hab
      rw [if_neg hyz] at hbc
      have h1 : x.toNat < y.toNat := of_decide_eq_true hab
      have h2 : y.toNat < z.toNat := of_decide_eq_true hbc
      have hxz : x.toNat < z.toNat := Nat.lt_trans h1 h2
      rw [if_neg (Nat.ne_of_lt hxz)]
      exact decide_eq_true hxz

instance : IsTotal String jsLe := ⟨fun a b => charListLe_total a.toList b.toList⟩

instance : IsTrans String jsLe := ⟨fun a b c => charListLe_trans a.toList b.toList c.toList⟩

theorem computeTags_sorted (s : String) : List.Sorted jsLe (computeTags s) :=
  List.sorted_insertionSort jsLe _

theorem computeTags_perm (s : String) :
    List.Perm (computeTags s) (splitChar ' ' s ++ ["flickr"]) :=
  List.perm_insertionSort jsLe _

/-! ### Trace-preservation lemmas for the individual operations -/

theorem downloadImage_pres (env : Env) (url : String) (tr : Trace) :
    ((downloadImage env url tr).1).statusWrites = tr.statusWrites ∧
    ((downloadImage env url tr).1).checkpointWrites = tr.checkpointWrites := by
  unfold downloadImage
  cases env.httpGet url <;> exact ⟨rfl, rfl⟩

theorem uploadImageOp_pres (env : Env) (f : String) (tr : Trace) :
    ((uploadImageOp env f tr).1).statusWrites = tr.statusWrites ∧
    ((uploadImageOp env f tr).1).checkpointWrites = tr.checkpointWrites ∧
    ((uploadImageOp env f tr).1).files = tr.files := by
  unfold uploadImageOp
  cases env.uploadImage f <;> exact ⟨rfl, rfl, rfl⟩

theorem unlinkOp_pres (env : Env) (f : String) (tr : Trace) :
    ((unlinkOp env f tr).1).statusWrites = tr.statusWrites ∧
    ((unlinkOp env f tr).1).checkpointWrites = tr.checkpointWrites := by
  unfold unlinkOp
  cases env.unlink f <;> exact ⟨rfl, rfl⟩

theorem addTagOp_pres (env : Env) (t : String) (tr : Trace) :
    ((addTagOp env t tr).1).statusWrites = tr.statusWrites ∧
    ((addTagOp env t tr).1).checkpointWrites = tr.checkpointWrites ∧
    ((addTagOp env t tr).1).files = tr.files := by
  unfold addTagOp
  cases env.addTag t <;> exact ⟨rfl, rfl, rfl⟩

theorem addPostOp_pres (env : Env) (p : Post) (tr : Trace) :
    ((addPostOp env p tr).1).statusWrites = tr.statusWrites ∧
    ((addPostOp env p tr).1).checkpointWrites = tr.checkpointWrites ∧
    ((addPostOp env p tr).1).files = tr.files := by
  unfold addPostOp
  cases env.addPost p <;> exact ⟨rfl, rfl, rfl⟩

theorem setStatusOp_pres (env : Env) (id : String) (st : PhotoStatus) (tr : Trace) :
    ((setStatusOp env id st tr).1).checkpointWrites = tr.checkpointWrites ∧
    ((setStatusOp env id st tr).1).files = tr.files := by
  unfold setStatusOp
  cases env.setStatus id st <;> exact ⟨rfl, rfl⟩

theorem liftE_pres {α : Type} (x : Except String α) (tr : Trace) :
    ((liftE x tr).1) = tr := by
  unfold liftE
  cases x <;> rfl

theorem createTags_pres (env : Env) (gts : List String) :
    ∀ (tags : List String) (tr : Trace),
      ((createTags env gts tags tr).1).statusWrites = tr.statusWrites ∧
      ((createTags env gts tags tr).1).checkpointWrites = tr.checkpointWrites ∧
      ((createTags env gts tags tr).1).files = tr.files
  | [], tr => ⟨rfl, rfl, rfl⟩
  | tag :: rest, tr => by
    unfold createTags
    by_cases h : gts.contains tag
    · rw [if_pos h]
      exact createTags_pres env gts rest tr
    · rw [if_neg h]
      rcases h1 : addTagOp env tag tr with ⟨tr1, res⟩
      have hp := addTagOp_pres env tag tr
      rw [h1] at hp
      cases res with
      | ok _ =>
        have hr := createTags_pres env gts rest tr1
        exact ⟨hr.1.trans hp.1, hr.2.1.trans hp.2.1, hr.2.2.trans hp.2.2⟩
      | error e => exact hp

theorem attemptPublish_pres (env : Env) (photo : Photo) (tr : Trace) :
    ((attemptPublish env photo tr).1).statusWrites = tr.statusWrites ∧
    ((attemptPublish env photo tr).1).checkpointWrites = tr.checkpointWrites := by
  unfold attemptPublish
  rcases h1 : downloadImage env photo.url_o tr with ⟨tr1, res1⟩
  have hp1 := downloadImage_pres env photo.url_o tr
  rw [h1] at hp1
  cases res1 with
  | error e => exact hp1
  | ok filePath =>
    dsimp only
    rcases h2 : uploadImageOp env filePath tr1 with ⟨tr2, res2⟩
    have hp2 := uploadImageOp_pres env filePath tr1
    rw [h2] at hp2
    cases res2 with
    | error e => exact ⟨hp2.1.trans hp1.1, hp2.2.1.trans hp1.2⟩
    | ok imageUploadUrl =>
      dsimp only
      rcases h3 : unlinkOp env filePath tr2 with ⟨tr3, res3⟩
      have hp3 := unlinkOp_pres env filePath tr2
      rw [h3] at hp3
      cases res3 with
      | error e => exact ⟨hp3.1.trans (hp2.1.trans hp1.1), hp3.2.trans (hp2.2.1.trans hp1.2)⟩
      | ok _ =>
        dsimp only [liftE]
        rcases h4 : env.browseTags with m | ghostTags
        · exact ⟨hp3.1.trans (hp2.1.trans hp1.1), hp3.2.trans (hp2.2.1.trans hp1.2)⟩
        · dsimp only
          rcases h5 : createTags env ghostTags (computeTags photo.tags) tr3 with ⟨tr5, res5⟩
          have hp5 := createTags_pres env ghostTags (computeTags photo.tags) tr3
          rw [h5] at hp5
          cases res5 with
          | error e =>
            exact ⟨hp5.1.trans (hp3.1.trans (hp2.1.trans hp1.1)),
              hp5.2.1.trans (hp3.2.trans (hp2.2.1.trans hp1.2))⟩
          | ok _ =>
            dsimp only [liftErr]
            rcases hd : descContent photo with e | desc
            · exact ⟨hp5.1.trans (hp3.1.trans (hp2.1.trans hp1.1)),
                hp5.2.1.trans (hp3.2.trans (hp2.2.1.trans hp1.2))⟩
            · dsimp only
              have hp7 := addPostOp_pres env
                { title := photo.title
                  html := "<p>" ++ desc ++ "</p>"
                  status := "published"
                  tags := computeTags photo.tags
                  feature_image := imageUploadUrl
                  published_at := env.toISOString (photo.dateupload * 1000) } tr5
              exact ⟨hp7.1.trans (hp5.1.trans (hp3.1.trans (hp2.1.trans hp1.1))),
                hp7.2.1.trans (hp5.2.1.trans (hp3.2.trans (hp2.2.1.trans hp1.2)))⟩

/-! ### Characterizations of the publish attempt -/

theorem createTags_ok (env : Env) (gts : List String) (hat : ∀ t, env.addTag t = Except.ok ()) :
    ∀ (tags : List String) (tr : Trace),
      createTags env gts tags tr =
        ({ tr with tagAdds := tr.tagAdds ++ tags.filter (fun t => !(gts.contains t)) },
          Except.ok ())
  | [], tr => by simp [createTags]
  | tag :: rest, tr => by
    unfold createTags
    by_cases h : gts.contains tag
    · rw [if_pos h, createTags_ok env gts hat rest tr]
      have h' : decide (tag ∈ gts) = true := by simpa using h
      simp [List.filter_cons, h']
    · rw [if_neg h]
      unfold addTagOp
      rw [hat tag]
      dsimp only
      rw [createTags_ok env gts hat rest _]
      have h' : decide (tag ∈ gts) = false := by simpa using h
      simp [List.filter_cons, h', List.append_assoc]

theorem attemptPublish_success (env : Env) (photo : Photo) (tr : Trace)
    (gts : List String) (hosted : String)
    (hhttp : env.httpGet photo.url_o = Except.ok ())
    (hup : env.uploadImage (tmpDest photo.url_o) = Except.ok hosted)
    (hun : env.unlink (tmpDest photo.url_o) = Except.ok ())
    (hbt : env.browseTags = Except.ok gts)
    (hat : ∀ t, env.addTag t = Except.ok ())
    (hap : ∀ p, env.addPost p = Except.ok ())
    (d : String) (hdesc : photo.description = some d) :
    attemptPublish env photo tr =
      ({ tr with
          files := (fsCreate tr.files (tmpDest photo.url_o)).erase (tmpDest photo.url_o)
          downloads := tr.downloads ++ [photo.url_o]
          uploads := tr.uploads ++ [tmpDest photo.url_o]
          tagAdds := tr.tagAdds ++ (computeTags photo.tags).filter (fun t => !(gts.contains t))
          posts := tr.posts ++ [ghostPost env photo d hosted] }, Except.ok ()) := by
  unfold attemptPublish downloadImage
  rw [hhttp]
  dsimp only
  unfold uploadImageOp
  rw [show ("/tmp/" ++ basename photo.url_o) = tmpDest photo.url_o from rfl, hup]
  dsimp only
  unfold unlinkOp
  rw [hun]
  dsimp only
  unfold liftE
  rw [hbt]
  dsimp only
  rw [createTags_ok env gts hat (computeTags photo.tags) _]
  dsimp only
  unfold liftErr descContent
  rw [hdesc]
  dsimp only
  unfold addPostOp
  rw [hap]
  rfl

theorem attemptPublish_download_fail (env : Env) (photo : Photo) (tr : Trace) (m : String)
    (hhttp : env.httpGet photo.url_o = Except.error m) :
    attemptPublish env photo tr =
      ({ tr with
          files := (fsCreate tr.files (tmpDest photo.url_o)).erase (tmpDest photo.url_o)
          downloads := tr.downloads ++ [photo.url_o] }, Except.error (Err.str m)) := by
  unfold attemptPublish downloadImage
  rw [hhttp]
  rfl

theorem attemptPublish_upload_fail (env : Env) (photo : Photo) (tr : Trace) (m : String)
    (hhttp : env.httpGet photo.url_o = Except.ok ())
    (hup : env.uploadImage (tmpDest photo.url_o) = Except.error m) :
    attemptPublish env photo tr =
      ({ tr with
          files := fsCreate tr.files (tmpDest photo.url_o)
          downloads := tr.downloads ++ [photo.url_o] }, Except.error (Err.error m)) := by
  unfold attemptPublish downloadImage
  rw [hhttp]
  dsimp only
  unfold uploadImageOp
  rw [show ("/tmp/" ++ basename photo.url_o) = tmpDest photo.url_o from rfl, hup]

/-! ### Characterizations of one loop iteration -/

theorem processPhotoBody_run (env : Env) (photo : Photo) (tr : Trace) (d : String)
    (hdesc : photo.description = some d)
    (hset : ∀ st, env.setStatus photo.id st = Except.ok ()) :
    processPhotoBody env photo tr =
      ({ (attemptPublish env photo tr).1 with
          statusWrites := ((attemptPublish env photo tr).1).statusWrites ++
            [(photo.id,
              match (attemptPublish env photo tr).2 with
              | Except.ok _ => photoStatusRecord photo d
              | Except.error e =>
                { photoStatusRecord photo d with success := false, error := errMessage e })] },
        Except.ok ()) := by
  unfold processPhotoBody liftErr descContent
  rw [hdesc]
  dsimp only
  rcases ha : attemptPublish env photo tr with ⟨tr2, res⟩
  cases res with
  | ok _ =>
    dsimp only
    unfold setStatusOp
    rw [hset]
    exact rfl
  | error e =>
    dsimp only
    unfold setStatusOp
    rw [hset]
    exact rfl

theorem processPhoto_skip (env : Env) (photo : Photo) (tr : Trace)
    (cs : Option PhotoStatus) (h : env.getStatus photo.id = Except.ok cs)
    (hs : statusSuccess cs = true) :
    processPhoto env photo tr = (tr, Except.ok ()) := by
  unfold processPhoto liftE
  rw [h]
  dsimp only
  rw [hs]
  rfl

theorem processPhoto_noskip (env : Env) (photo : Photo) (tr : Trace)
    (cs : Option PhotoStatus) (h : env.getStatus photo.id = Except.ok cs)
    (hs : statusSuccess cs = false) :
    processPhoto env photo tr = processPhotoBody env photo tr := by
  unfold processPhoto liftE
  rw [h]
  dsimp only
  rw [hs]
  rfl

theorem processPhoto_ok (env : Env) (photo : Photo) (tr : Trace)
    (hget : ∃ r, env.getStatus photo.id = Except.ok r)
    (hdesc : photo.description.isSome)
    (hset : ∀ st, env.setStatus photo.id st = Except.ok ()) :
    (processPhoto env photo tr).2 = Except.ok () ∧
    ((processPhoto env photo tr).1).checkpointWrites = tr.checkpointWrites := by
  obtain ⟨cs, h⟩ := hget
  obtain ⟨d, hd⟩ := Option.isSome_iff_exists.mp hdesc
  cases hs : statusSuccess cs with
  | true =>
    rw [processPhoto_skip env photo tr cs h hs]
    exact ⟨rfl, rfl⟩
  | false =>
    rw [processPhoto_noskip env photo tr cs h hs,
      processPhotoBody_run env photo tr d hd hset]
    refine ⟨rfl, ?_⟩
    exact (attemptPublish_pres env photo tr).2

theorem processPhotos_skip_all (env : Env) : ∀ (photos : List Photo) (tr : Trace),
    (∀ p ∈ photos, ∃ st, env.getStatus p.id = Except.ok (some st) ∧ st.success = true) →
    processPhotos env photos tr = (tr, Except.ok ())
  | [], tr, _ => rfl
  | photo :: rest, tr, h => by
    obtain ⟨st, hg, hsucc⟩ := h photo (List.mem_cons_self photo rest)
    unfold processPhotos
    rw [processPhoto_skip env photo tr (some st) hg (by simp [statusSuccess, hsucc])]
    dsimp only
    exact processPhotos_skip_all env rest tr (fun p hp => h p (List.mem_cons_of_mem _ hp))

theorem processPhotos_ok (env : Env) : ∀ (photos : List Photo) (tr : Trace),
    (∀ p ∈ photos, (∃ r, env.getStatus p.id = Except.ok r) ∧ p.description.isSome ∧
      (∀ st, env.setStatus p.id st = Except.ok ())) →
    (processPhotos env photos tr).2 = Except.ok () ∧
    ((processPhotos env photos tr).1).checkpointWrites = tr.checkpointWrites
  | [], tr, _ => ⟨rfl, rfl⟩
  | photo :: rest, tr, h => by
    obtain ⟨hget, hdesc, hset⟩ := h photo (List.mem_cons_self photo rest)
    unfold processPhotos
    rcases hp : processPhoto env photo tr with ⟨tr1, res⟩
    have hok := processPhoto_ok env photo tr hget hdesc hset
    rw [hp] at hok
    cases res with
    | error e => exact absurd hok.1 (by simp)
    | ok _ =>
      dsimp only
      have hr := processPhotos_ok env rest tr1 (fun p hpm => h p (List.mem_cons_of_mem _ hpm))
      exact ⟨hr.1, hr.2.trans hok.2⟩

/-! ### Characterizations of the whole run -/

theorem photoUploader_run_ok (env : Env) (t : Int) (photos : List Photo) (tr : Trace)
    (hlc : env.lastCheck = Except.ok t)
    (hgp : env.getPhotos t = Except.ok photos)
    (hper : ∀ p ∈ photos, (∃ r, env.getStatus p.id = Except.ok r) ∧ p.description.isSome ∧
      (∀ st, env.setStatus p.id st = Except.ok ()))
    (hslc : env.setLastCheck (nextCheckTime env.nowMs) = Except.ok ()) :
    (photoUploader env tr).2 = Except.ok () ∧
    ((photoUploader env tr).1).checkpointWrites =
      tr.checkpointWrites ++ [nextCheckTime env.nowMs] := by
  unfold photoUploader liftE
  rw [hlc]
  dsimp only
  rw [hgp]
  dsimp only
  rcases hp : processPhotos env photos tr with ⟨tr3, res⟩
  have hok := processPhotos_ok env photos tr hper
  rw [hp] at hok
  cases res with
  | error e => exact absurd hok.1 (by simp)
  | ok _ =>
    dsimp only
    unfold setLastCheckOp
    rw [hslc]
    exact ⟨rfl, by dsimp only; rw [hok.2]⟩

theorem photoUploader_all_skip (env : Env) (t : Int) (photos : List Photo) (tr : Trace)
    (hlc : env.lastCheck = Except.ok t)
    (hgp : env.getPhotos t = Except.ok photos)
    (hskip : ∀ p ∈ photos, ∃ st, env.getStatus p.id = Except.ok (some st) ∧ st.success = true)
    (hslc : env.setLastCheck (nextCheckTime env.nowMs) = Except.ok ()) :
    photoUploader env tr =
      ({ tr with checkpointWrites := tr.checkpointWrites ++ [nextCheckTime env.nowMs] },
        Except.ok ()) := by
  unfold photoUploader liftE
  rw [hlc]
  dsimp only
  rw [hgp]
  dsimp only
  rw [processPhotos_skip_all env photos tr hskip]
  dsimp only
  unfold setLastCheckOp
  rw [hslc]

theorem photoUploader_lastCheck_fail (env : Env) (tr : Trace) (m : String)
    (hlc : env.lastCheck = Except.error m) :
    photoUploader env tr = (tr, Except.error (Err.error m)) := by
  unfold photoUploader liftE
  rw [hlc]

theorem photoUploader_list_fail (env : Env) (tr : Trace) (t : Int) (m : String)
    (hlc : env.lastCheck = Except.ok t)
    (hgp : env.getPhotos t = Except.error m) :
    photoUploader env tr = (tr, Except.error (Err.error m)) := by
  unfold photoUploader liftE
  rw [hlc]
  dsimp only
  rw [hgp]

theorem processPhoto_success (env : Env) (photo : Photo) (tr : Trace)
    (cs : Option PhotoStatus) (gts : List String) (hosted d : String)
    (hget : env.getStatus photo.id = Except.ok cs) (hs : statusSuccess cs = false)
    (hdesc : photo.description = some d)
    (hhttp : env.httpGet photo.url_o = Except.ok ())
    (hup : env.uploadImage (tmpDest photo.url_o) = Except.ok hosted)
    (hun : env.unlink (tmpDest photo.url_o) = Except.ok ())
    (hbt : env.browseTags = Except.ok gts)
    (hat : ∀ s, env.addTag s = Except.ok ())
    (hap : ∀ p, env.addPost p = Except.ok ())
    (hset : ∀ st, env.setStatus photo.id st = Except.ok ()) :
    processPhoto env photo tr =
      ({ tr with
          files := (fsCreate tr.files (tmpDest photo.url_o)).erase (tmpDest photo.url_o)
          downloads := tr.downloads ++ [photo.url_o]
          uploads := tr.uploads ++ [tmpDest photo.url_o]
          tagAdds := tr.tagAdds ++ (computeTags photo.tags).filter (fun s => !(gts.contains s))
          posts := tr.posts ++ [ghostPost env photo d hosted]
          statusWrites := tr.statusWrites ++ [(photo.id, photoStatusRecord photo d)] },
        Except.ok ()) := by
  rw [processPhoto_noskip env photo tr cs hget hs,
    processPhotoBody_run env photo tr d hdesc hset,
    attemptPublish_success env photo tr gts hosted hhttp hup hun hbt hat hap d hdesc]

theorem processPhoto_download_fail (env : Env) (photo : Photo) (tr : Trace)
    (cs : Option PhotoStatus) (d m : String)
    (hget : env.getStatus photo.id = Except.ok cs) (hs : statusSuccess cs = false)
    (hdesc : photo.description = some d)
    (hhttp : env.httpGet photo.url_o = Except.error m)
    (hset : ∀ st, env.setStatus photo.id st = Except.ok ()) :
    processPhoto env photo tr =
      ({ tr with
          files := (fsCreate tr.files (tmpDest photo.url_o)).erase (tmpDest photo.url_o)
          downloads := tr.downloads ++ [photo.url_o]
          statusWrites := tr.statusWrites ++
            [(photo.id,
              { photoStatusRecord photo d with success := false, error := none })] },
        Except.ok ()) := by
  rw [processPhoto_noskip env photo tr cs hget hs,
    processPhotoBody_run env photo tr d hdesc hset,
    attemptPublish_download_fail env photo tr m hhttp]
  exact rfl

theorem processPhoto_attempt_error (env : Env) (photo : Photo) (tr : Trace)
    (cs : Option PhotoStatus) (d : String) (e : Err)
    (hget : env.getStatus photo.id = Except.ok cs) (hs : statusSuccess cs = false)
    (hdesc : photo.description = some d)
    (hset : ∀ st, env.setStatus photo.id st = Except.ok ())
    (ha : (attemptPublish env photo tr).2 = Except.error e) :
    (processPhoto env photo tr).2 = Except.ok () ∧
    ((processPhoto env photo tr).1).statusWrites = tr.statusWrites ++
      [(photo.id, { photoStatusRecord photo d with success := false, error := errMessage e })] := by
  rw [processPhoto_noskip env photo tr cs hget hs,
    processPhotoBody_run env photo tr d hdesc hset]
  rw [ha]
  exact ⟨rfl, by dsimp only; rw [(attemptPublish_pres env photo tr).1]⟩

theorem processPhoto_attempt_ok (env : Env) (photo : Photo) (tr : Trace)
    (cs : Option PhotoStatus) (d : String)
    (hget : env.getStatus photo.id = Except.ok cs) (hs : statusSuccess cs = false)
    (hdesc : photo.description = some d)
    (hset : ∀ st, env.setStatus photo.id st = Except.ok ())
    (ha : (attemptPublish env photo tr).2 = Except.ok ()) :
    (processPhoto env photo tr).2 = Except.ok () ∧
    ((processPhoto env photo tr).1).statusWrites = tr.statusWrites ++
      [(photo.id, photoStatusRecord photo d)] := by
  rw [processPhoto_noskip env photo tr cs hget hs,
    processPhotoBody_run env photo tr d hdesc hset]
  rw [ha]
  exact ⟨rfl, by dsimp only; rw [(attemptPublish_pres env photo tr).1]⟩

theorem processPhotoBody_desc_missing (env : Env) (photo : Photo) (tr : Trace)
    (hdesc : photo.description = none) :
    processPhotoBody env photo tr =
      (tr, Except.error (Err.error "Cannot read properties of undefined (reading _content)")) := by
  unfold processPhotoBody liftErr descContent
  rw [hdesc]

theorem processPhoto_setStatus_fail (env : Env) (photo : Photo) (tr : Trace)
    (cs : Option PhotoStatus) (d m : String)
    (hget : env.getStatus photo.id = Except.ok cs) (hs : statusSuccess cs = false)
    (hdesc : photo.description = some d)
    (hset : ∀ st, env.setStatus photo.id st = Except.error m) :
    (processPhoto env photo tr).2 = Except.error (Err.error m) ∧
    ((processPhoto env photo tr).1).statusWrites = tr.statusWrites ∧
    ((processPhoto env photo tr).1).checkpointWrites = tr.checkpointWrites := by
  rw [processPhoto_noskip env photo tr cs hget hs]
  unfold processPhotoBody liftErr descContent
  rw [hdesc]
  dsimp only
  rcases ha : attemptPublish env photo tr with ⟨tr2, res⟩
  have hpres := attemptPublish_pres env photo tr
  rw [ha] at hpres
  cases res with
  | ok _ =>
    dsimp only
    unfold setStatusOp
    rw [hset]
    exact ⟨rfl, hpres.1, hpres.2⟩
  | error e =>
    dsimp only
    unfold setStatusOp
    rw [hset]
    exact ⟨rfl, hpres.1, hpres.2⟩

theorem photoUploader_first_photo_throws (env : Env) (t : Int) (p : Photo)
    (rest : List Photo) (tr trp : Trace) (e : Err)
    (hlc : env.lastCheck = Except.ok t)
    (hgp : env.getPhotos t = Except.ok (p :: rest))
    (hp : processPhoto env p tr = (trp, Except.error e)) :
    photoUploader env tr = (trp, Except.error e) := by
  unfold photoUploader liftE
  rw [hlc]
  dsimp only
  rw [hgp]
  dsimp only
  unfold processPhotos
  rw [hp]

theorem fsCreate_erase (files : List String) (f : String) (h : f ∉ files) :
    (fsCreate files f).erase f = files := by
  unfold fsCreate
  rw [if_neg h]
  induction files with
  | nil => simp
  | cons a l ih =>
    have ha : f ≠ a := fun hf => h (hf ▸ List.mem_cons_self a l)
    have hl : f ∉ l := fun hf => h (List.mem_cons_of_mem a hf)
    rw [List.cons_append, List.erase_cons_tail, ih hl]
    simp [beq_eq_false_iff_ne, ha.symm]

theorem attemptPublish_files_after_unlink (env : Env) (photo : Photo) (tr : Trace)
    (hosted : String)
    (hhttp : env.httpGet photo.url_o = Except.ok ())
    (hup : env.uploadImage (tmpDest photo.url_o) = Except.ok hosted)
    (hun : env.unlink (tmpDest photo.url_o) = Except.ok ()) :
    ((attemptPublish env photo tr).1).files =
      (fsCreate tr.files (tmpDest photo.url_o)).erase (tmpDest photo.url_o) := by
  unfold attemptPublish downloadImage
  rw [hhttp]
  dsimp only
  unfold uploadImageOp
  rw [show ("/tmp/" ++ basename photo.url_o) = tmpDest photo.url_o from rfl, hup]
  dsimp only
  unfold unlinkOp
  rw [hun]
  dsimp only
  unfold liftE
  rcases hbt : env.browseTags with m | gts
  · exact rfl
  · dsimp only
    rcases h5 : createTags env gts (computeTags photo.tags)
      { files := (fsCreate tr.files (tmpDest photo.url_o)).erase (tmpDest photo.url_o)
        downloads := tr.downloads ++ [photo.url_o]
        uploads := tr.uploads ++ [tmpDest photo.url_o]
        tagAdds := tr.tagAdds
        posts := tr.posts
        statusWrites := tr.statusWrites
        checkpointWrites := tr.checkpointWrites } with ⟨tr5, res5⟩
    have hp5 := createTags_pres env gts (computeTags photo.tags)
      { files := (fsCreate tr.files (tmpDest photo.url_o)).erase (tmpDest photo.url_o)
        downloads := tr.downloads ++ [photo.url_o]
        uploads := tr.uploads ++ [tmpDest photo.url_o]
        tagAdds := tr.tagAdds
        posts := tr.posts
        statusWrites := tr.statusWrites
        checkpointWrites := tr.checkpointWrites }
    rw [h5] at hp5
    cases res5 with
    | error e => exact hp5.2.2
    | ok _ =>
      dsimp only [liftErr]
      rcases hd : descContent photo with e | desc
      · exact hp5.2.2
      · dsimp only
        have hp7 := addPostOp_pres env
          { title := photo.title
            html := "<p>" ++ desc ++ "</p>"
            status := "published"
            tags := computeTags photo.tags
            feature_image := hosted
            published_at := env.toISOString (photo.dateupload * 1000) } tr5
        exact hp7.2.2.trans hp5.2.2

theorem attemptPublish_unlink_fail (env : Env) (photo : Photo) (tr : Trace)
    (hosted m : String)
    (hhttp : env.httpGet photo.url_o = Except.ok ())
    (hup : env.uploadImage (tmpDest photo.url_o) = Except.ok hosted)
    (hun : env.unlink (tmpDest photo.url_o) = Except.error m) :
    attemptPublish env photo tr =
      ({ tr with
          files := fsCreate tr.files (tmpDest photo.url_o)
          downloads := tr.downloads ++ [photo.url_o]
          uploads := tr.uploads ++ [tmpDest photo.url_o] }, Except.error (Err.error m)) := by
  unfold attemptPublish downloadImage
  rw [hhttp]
  dsimp only
  unfold uploadImageOp
  rw [show ("/tmp/" ++ basename photo.url_o) = tmpDest photo.url_o from rfl, hup]
  dsimp only
  unfold unlinkOp
  rw [hun]

theorem processPhotoBody_files (env : Env) (photo : Photo) (tr : Trace) (d : String)
    (hdesc : photo.description = some d)
    (hset : ∀ st, env.setStatus photo.id st = Except.ok ()) :
    ((processPhotoBody env photo tr).1).files = ((attemptPublish env photo tr).1).files := by
  rw [processPhotoBody_run env photo tr d hdesc hset]

/-! ### Claim theorems -/

/-- C1: a photo whose stored PhotoStatus exists with `success = true` is
skipped: that iteration performs no download, no image upload, no tag call, no
post creation and no status write (the trace is returned unchanged and the
iteration succeeds); consequently a run in which every candidate photo already
has a succeeded status mutates no photo status record and creates no posts —
the only effect of the run is appending the new checkpoint value.  Since the
skip decision reads only the stored status, a photo once recorded successful
is skipped on every subsequent run. -/
theorem spec_c1_skip_success :
    (∀ (env : Env) (photo : Photo) (tr : Trace) (cs : Option PhotoStatus),
      env.getStatus photo.id = Except.ok cs → statusSuccess cs = true →
      processPhoto env photo tr = (tr, Except.ok ())) ∧
    (∀ (env : Env) (t : Int) (photos : List Photo) (tr : Trace),
      env.lastCheck = Except.ok t → env.getPhotos t = Except.ok photos →
      (∀ p ∈ photos, ∃ st, env.getStatus p.id = Except.ok (some st) ∧ st.success = true) →
      env.setLastCheck (nextCheckTime env.nowMs) = Except.ok () →
      photoUploader env tr =
        ({ tr with checkpointWrites := tr.checkpointWrites ++ [nextCheckTime env.nowMs] },
          Except.ok ())) :=
  ⟨fun env photo tr cs h hs => processPhoto_skip env photo tr cs h hs,
   fun env t photos tr hlc hgp hskip hslc =>
     photoUploader_all_skip env t photos tr hlc hgp hskip hslc⟩

theorem spec_c1_skip_success_witness :
    processPhoto envSkip photoA Trace.empty = (Trace.empty, Except.ok ()) ∧
    photoUploader envSkip Trace.empty =
      ({ Trace.empty with checkpointWrites := [nextCheckTime envSkip.nowMs] },
        Except.ok ()) :=
  ⟨spec_c1_skip_success.1 envSkip photoA Trace.empty (some succeededStatus) rfl rfl,
   spec_c1_skip_success.2 envSkip 1649000000 [photoA] Trace.empty rfl rfl
     (fun _ _ => ⟨succeededStatus, rfl, rfl⟩) rfl⟩

/-- C3: when the per-photo loop completes over every candidate (which requires
only that each photo's status read succeeds, its description field is present
and its status write succeeds — the publish sub-steps may fail arbitrarily),
the run succeeds and appends exactly one checkpoint write, carrying the
precomputed `next_check_time`; per-photo publish failures do not prevent it. -/
theorem spec_c3_checkpoint_once (env : Env) (t : Int) (photos : List Photo) (tr : Trace)
    (hlc : env.lastCheck = Except.ok t)
    (hgp : env.getPhotos t = Except.ok photos)
    (hper : ∀ p ∈ photos, (∃ r, env.getStatus p.id = Except.ok r) ∧ p.description.isSome ∧
      (∀ st, env.setStatus p.id st = Except.ok ()))
    (hslc : env.setLastCheck (nextCheckTime env.nowMs) = Except.ok ()) :
    (photoUploader env tr).2 = Except.ok () ∧
    ((photoUploader env tr).1).checkpointWrites =
      tr.checkpointWrites ++ [nextCheckTime env.nowMs] :=
  photoUploader_run_ok env t photos tr hlc hgp hper hslc

theorem spec_c3_checkpoint_once_witness :
    (photoUploader envDownloadFail Trace.empty).2 = Except.ok () ∧
    ((photoUploader envDownloadFail Trace.empty).1).checkpointWrites =
      [nextCheckTime envDownloadFail.nowMs] :=
  spec_c3_checkpoint_once envDownloadFail 1649000000 [photoA] Trace.empty rfl rfl
    (fun p hp => by
      rw [List.mem_singleton.mp hp]
      exact ⟨⟨none, rfl⟩, rfl, fun _ => rfl⟩) rfl

/-- C5: under the safety-margin policy of `src/src/index.ts`, the checkpoint
value persisted at the end of a completed run is
`Math.floor((now_ms - 24*60*60*1000) / 1000)` — the run time minus 24 hours
in Unix seconds — for every value `t` of the checkpoint read at run start. -/
theorem spec_c5_safety_margin (env : Env) (t : Int) (photos : List Photo) (tr : Trace)
    (hlc : env.lastCheck = Except.ok t)
    (hgp : env.getPhotos t = Except.ok photos)
    (hper : ∀ p ∈ photos, (∃ r, env.getStatus p.id = Except.ok r) ∧ p.description.isSome ∧
      (∀ st, env.setStatus p.id st = Except.ok ()))
    (hslc : env.setLastCheck (nextCheckTime env.nowMs) = Except.ok ()) :
    ((photoUploader env tr).1).checkpointWrites =
      tr.checkpointWrites ++ [Int.fdiv (env.nowMs - 24 * 60 * 60 * 1000) 1000] :=
  (photoUploader_run_ok env t photos tr hlc hgp hper hslc).2

theorem spec_c5_safety_margin_witness :
    ((photoUploader envOk Trace.empty).1).checkpointWrites =
      [Int.fdiv ((1700000000000 : Int) - 24 * 60 * 60 * 1000) 1000] :=
  spec_c5_safety_margin envOk 1649000000 [photoA] Trace.empty rfl rfl
    (fun p hp => by
      rw [List.mem_singleton.mp hp]
      exact ⟨⟨none, rfl⟩, rfl, fun _ => rfl⟩) rfl

/-- C7: if the checkpoint read fails, or the photo-list query fails, the
exception propagates out of the run and the trace is returned unchanged: no
photo status record is written, no post is created and the checkpoint is not
advanced, so the next invocation starts from the same stored checkpoint. -/
theorem spec_c7_fatal_aborts :
    (∀ (env : Env) (tr : Trace) (m : String),
      env.lastCheck = Except.error m →
      photoUploader env tr = (tr, Except.error (Err.error m))) ∧
    (∀ (env : Env) (tr : Trace) (t : Int) (m : String),
      env.lastCheck = Except.ok t → env.getPhotos t = Except.error m →
      photoUploader env tr = (tr, Except.error (Err.error m))) :=
  ⟨fun env tr m hlc => photoUploader_lastCheck_fail env tr m hlc,
   fun env tr t m hlc hgp => photoUploader_list_fail env tr t m hlc hgp⟩

theorem spec_c7_fatal_aborts_witness :
    photoUploader envLastCheckFail Trace.empty =
      (Trace.empty, Except.error (Err.error "PERMISSION_DENIED")) ∧
    photoUploader envListFail Trace.empty =
      (Trace.empty, Except.error (Err.error "Invalid API Key")) :=
  ⟨spec_c7_fatal_aborts.1 envLastCheckFail Trace.empty "PERMISSION_DENIED" rfl,
   spec_c7_fatal_aborts.2 envListFail Trace.empty 1649000000 "Invalid API Key" rfl rfl⟩

/-- C9: for every non-negative run time (`Date.now()` is non-negative), the
checkpoint computed by `src/src/index.ts` (`nextCheckTime`, Unix seconds of
now − 24h) differs from the checkpoint computed by `src/unnamed/part_000`
(`nextCheckTimeNaive`, the raw `Date.now()` milliseconds): the two observed
checkpoint computations are not equivalent. -/
theorem spec_c9_policies_differ (nowMs : Int) (h : 0 ≤ nowMs) :
    nextCheckTime nowMs ≠ nextCheckTimeNaive nowMs := by
  unfold nextCheckTime nextCheckTimeNaive
  rw [Int.fdiv_eq_ediv _ (by norm_num)]
  intro hEq
  omega

theorem spec_c9_policies_differ_witness :
    (0 : Int) ≤ 1700000000000 ∧
    nextCheckTime 1700000000000 ≠ nextCheckTimeNaive 1700000000000 :=
  ⟨by decide, spec_c9_policies_differ 1700000000000 (by decide)⟩

/-- C10: the per-photo `catch` protects only the publish sub-steps inside the
`try`.  Both the construction of the status record (which dereferences
`photo.description._content`) and the status write itself sit outside it, so:
(first conjunct) a non-skipped photo with no `description` field throws a
TypeError that propagates out of the whole run — the trace is unchanged, the
remaining photos are never processed and the checkpoint is not advanced; and
(second conjunct) a non-skipped photo whose status write fails likewise aborts
the run with that error, with no status write and no checkpoint write
recorded. -/
theorem spec_c10_unprotected_steps :
    (∀ (env : Env) (t : Int) (p : Photo) (rest : List Photo) (tr : Trace)
      (cs : Option PhotoStatus),
      env.lastCheck = Except.ok t → env.getPhotos t = Except.ok (p :: rest) →
      env.getStatus p.id = Except.ok cs → statusSuccess cs = false →
      p.description = none →
      photoUploader env tr =
        (tr, Except.error (Err.error "Cannot read properties of undefined (reading _content)"))) ∧
    (∀ (env : Env) (t : Int) (p : Photo) (rest : List Photo) (tr : Trace)
      (cs : Option PhotoStatus) (d m : String),
      env.lastCheck = Except.ok t → env.getPhotos t = Except.ok (p :: rest) →
      env.getStatus p.id = Except.ok cs → statusSuccess cs = false →
      p.description = some d → (∀ st, env.setStatus p.id st = Except.error m) →
      (photoUploader env tr).2 = Except.error (Err.error m) ∧
      ((photoUploader env tr).1).statusWrites = tr.statusWrites ∧
      ((photoUploader env tr).1).checkpointWrites = tr.checkpointWrites) := by
  constructor
  · intro env t p rest tr cs hlc hgp hget hs hdesc
    refine photoUploader_first_photo_throws env t p rest tr tr _ hlc hgp ?_
    rw [processPhoto_noskip env p tr cs hget hs]
    exact processPhotoBody_desc_missing env p tr hdesc
  · intro env t p rest tr cs d m hlc hgp hget hs hdesc hset
    have hfail := processPhoto_setStatus_fail env p tr cs d m hget hs hdesc hset
    rcases hp : processPhoto env p tr with ⟨trp, res⟩
    rw [hp] at hfail
    cases res with
    | ok _ => exact absurd hfail.1 (by simp)
    | error e =>
      have he : e = Err.error m := by
        have := hfail.1
        simpa using this
      subst he
      rw [photoUploader_first_photo_throws env t p rest tr trp _ hlc hgp hp]
      exact ⟨rfl, hfail.2.1, hfail.2.2⟩

theorem spec_c10_unprotected_steps_witness :
    photoUploader envNoDesc Trace.empty =
      (Trace.empty,
        Except.error (Err.error "Cannot read properties of undefined (reading _content)")) ∧
    (photoUploader envSetStatusFail Trace.empty).2 =
      Except.error (Err.error "PERMISSION_DENIED") ∧
    ((photoUploader envSetStatusFail Trace.empty).1).statusWrites = [] ∧
    ((photoUploader envSetStatusFail Trace.empty).1).checkpointWrites = [] :=
  ⟨spec_c10_unprotected_steps.1 envNoDesc 1649000000 photoNoDesc [photoA]
      Trace.empty none rfl rfl rfl rfl rfl,
   spec_c10_unprotected_steps.2 envSetStatusFail 1649000000 photoA []
      Trace.empty none "photo a" "PERMISSION_DENIED" rfl rfl rfl rfl rfl (fun _ => rfl)⟩

/-- C2 counterexample: the claim "error set to the failure's description" is
false when the failing sub-step is the download.  `downloadImage` rejects with
`err.message` — a plain string, not an `Error` — so the `catch` block's
`(e as any).message` is `undefined` and the persisted status carries
`error = none` even though the failure's description was "socket hang up". -/
theorem spec_c2_counterexample :
    envDownloadFail.httpGet photoA.url_o = Except.error "socket hang up" ∧
    (processPhoto envDownloadFail photoA Trace.empty).2 = Except.ok () ∧
    ((processPhoto envDownloadFail photoA Trace.empty).1).statusWrites =
      [(photoA.id,
        { photoStatusRecord photoA "photo a" with success := false, error := none })] ∧
    (none : Option String) ≠ some "socket hang up" :=
  ⟨rfl, rfl, rfl, by decide⟩

/-- C2 (amended): for a non-skipped photo whose status read, description field
and status write are fine, any exception thrown by the publish sub-steps is
captured: the iteration still returns `ok` (the loop continues) and, after the
attempt, a status with `success = false` and `error` equal to the thrown
value's `message` property is appended — that is the failure's description
`some m` when the sub-step threw an `Error` (e.g. the image upload), but
`none` when the download failed, because `downloadImage` rejects with the
message string itself; on success of all sub-steps the status appended has
`success = true` and `error = none`. -/
theorem spec_c2_error_capture (env : Env) (photo : Photo) (tr : Trace)
    (cs : Option PhotoStatus) (d : String)
    (hget : env.getStatus photo.id = Except.ok cs) (hs : statusSuccess cs = false)
    (hdesc : photo.description = some d)
    (hset : ∀ st, env.setStatus photo.id st = Except.ok ()) :
    (∀ e, (attemptPublish env photo tr).2 = Except.error e →
      (processPhoto env photo tr).2 = Except.ok () ∧
      ((processPhoto env photo tr).1).statusWrites = tr.statusWrites ++
        [(photo.id,
          { photoStatusRecord photo d with success := false, error := errMessage e })]) ∧
    ((attemptPublish env photo tr).2 = Except.ok () →
      (processPhoto env photo tr).2 = Except.ok () ∧
      ((processPhoto env photo tr).1).statusWrites = tr.statusWrites ++
        [(photo.id, photoStatusRecord photo d)]) ∧
    (∀ m, env.httpGet photo.url_o = Except.ok () →
      env.uploadImage (tmpDest photo.url_o) = Except.error m →
      (attemptPublish env photo tr).2 = Except.error (Err.error m)) ∧
    (∀ m, env.httpGet photo.url_o = Except.error m →
      (attemptPublish env photo tr).2 = Except.error (Err.str m)) ∧
    (∀ m, errMessage (Err.error m) = some m) ∧
    (∀ s, errMessage (Err.str s) = none) := by
  refine ⟨fun e ha => processPhoto_attempt_error env photo tr cs d e hget hs hdesc hset ha,
    fun ha => processPhoto_attempt_ok env photo tr cs d hget hs hdesc hset ha,
    fun m hh hu => ?_, fun m hh => ?_, fun m => rfl, fun s => rfl⟩
  · rw [attemptPublish_upload_fail env photo tr m hh hu]
  · rw [attemptPublish_download_fail env photo tr m hh]

theorem spec_c2_error_capture_witness :
    (processPhoto envUploadFail photoA Trace.empty).2 = Except.ok () ∧
    ((processPhoto envUploadFail photoA Trace.empty).1).statusWrites =
      [(photoA.id,
        { photoStatusRecord photoA "photo a" with
            success := false
            error := some "Request failed with status code 500" })] :=
  (spec_c2_error_capture envUploadFail photoA Trace.empty none "photo a"
      rfl rfl rfl (fun _ => rfl)).1
    (Err.error "Request failed with status code 500") rfl

/-- C4 counterexample: the claim "no residual temporary file, independent of
publish outcome" is false.  There is no `finally`: when the image upload
throws, the `catch` fires before `fsPromises.unlink` runs, the iteration
completes normally (status written), and the downloaded file is still in the
scratch location. -/
theorem spec_c4_counterexample :
    (processPhoto envUploadFail photoA Trace.empty).2 = Except.ok () ∧
    ((processPhoto envUploadFail photoA Trace.empty).1).files = ["/tmp/a_o.jpg"] :=
  ⟨rfl, rfl⟩

/-- C4 (amended): the temporary file is released only on the paths that reach
a deletion.  When download, image upload and the unlink all succeed, the
scratch location ends clean regardless of the outcomes of the later tag
listing, tag creation and post steps (which never touch the file); and when
the HTTPS request itself errors, the handler unlinks before rejecting.  But if
the image upload throws, or the unlink itself throws, the `catch` fires with
no `finally`, the iteration still completes normally, and the photo's
temporary file remains in the scratch location. -/
theorem spec_c4_cleanup (env : Env) (photo : Photo) (tr : Trace)
    (cs : Option PhotoStatus) (d : String)
    (hfile : tmpDest photo.url_o ∉ tr.files)
    (hget : env.getStatus photo.id = Except.ok cs) (hs : statusSuccess cs = false)
    (hdesc : photo.description = some d)
    (hset : ∀ st, env.setStatus photo.id st = Except.ok ()) :
    (∀ hosted, env.httpGet photo.url_o = Except.ok () →
      env.uploadImage (tmpDest photo.url_o) = Except.ok hosted →
      env.unlink (tmpDest photo.url_o) = Except.ok () →
      ((processPhoto env photo tr).1).files = tr.files) ∧
    (∀ m, env.httpGet photo.url_o = Except.error m →
      ((processPhoto env photo tr).1).files = tr.files) ∧
    (∀ m, env.httpGet photo.url_o = Except.ok () →
      env.uploadImage (tmpDest photo.url_o) = Except.error m →
      (processPhoto env photo tr).2 = Except.ok () ∧
      ((processPhoto env photo tr).1).files = tr.files ++ [tmpDest photo.url_o]) ∧
    (∀ hosted m, env.httpGet photo.url_o = Except.ok () →
      env.uploadImage (tmpDest photo.url_o) = Except.ok hosted →
      env.unlink (tmpDest photo.url_o) = Except.error m →
      (processPhoto env photo tr).2 = Except.ok () ∧
      ((processPhoto env photo tr).1).files = tr.files ++ [tmpDest photo.url_o]) := by
  refine ⟨?_, ?_, ?_, ?_⟩
  · intro hosted hh hu hun
    rw [processPhoto_noskip env photo tr cs hget hs,
      processPhotoBody_files env photo tr d hdesc hset,
      attemptPublish_files_after_unlink env photo tr hosted hh hu hun]
    exact fsCreate_erase tr.files _ hfile
  · intro m hh
    rw [processPhoto_download_fail env photo tr cs d m hget hs hdesc hh hset]
    exact fsCreate_erase tr.files _ hfile
  · intro m hh hu
    rw [processPhoto_noskip env photo tr cs hget hs]
    constructor
    · rw [processPhotoBody_run env photo tr d hdesc hset]
    · rw [processPhotoBody_files env photo tr d hdesc hset,
        attemptPublish_upload_fail env photo tr m hh hu]
      unfold fsCreate
      rw [if_neg hfile]
  · intro hosted m hh hu hun
    rw [processPhoto_noskip env photo tr cs hget hs]
    constructor
    · rw [processPhotoBody_run env photo tr d hdesc hset]
    · rw [processPhotoBody_files env photo tr d hdesc hset,
        attemptPublish_unlink_fail env photo tr hosted m hh hu hun]
      unfold fsCreate
      rw [if_neg hfile]

theorem spec_c4_cleanup_witness :
    ((processPhoto envTagAddFail photoA Trace.empty).1).files = [] ∧
    ((processPhoto envDownloadFail photoA Trace.empty).1).files = [] ∧
    ((processPhoto envUploadFail photoA Trace.empty).1).files = ["/tmp/a_o.jpg"] ∧
    ((processPhoto envUnlinkFail photoA Trace.empty).1).files = ["/tmp/a_o.jpg"] := by
  refine ⟨?_, ?_, ?_, ?_⟩
  · exact (spec_c4_cleanup envTagAddFail photoA Trace.empty none "photo a"
      (by simp [Trace.empty]) rfl rfl rfl (fun _ => rfl)).1
      "https://ghost.example/content/images/a.jpg" rfl rfl rfl
  · exact (spec_c4_cleanup envDownloadFail photoA Trace.empty none "photo a"
      (by simp [Trace.empty]) rfl rfl rfl (fun _ => rfl)).2.1 "socket hang up" rfl
  · exact ((spec_c4_cleanup envUploadFail photoA Trace.empty none "photo a"
      (by simp [Trace.empty]) rfl rfl rfl (fun _ => rfl)).2.2.1
      "Request failed with status code 500" rfl rfl).2
  · exact ((spec_c4_cleanup envUnlinkFail photoA Trace.empty none "photo a"
      (by simp [Trace.empty]) rfl rfl rfl (fun _ => rfl)).2.2.2
      "https://ghost.example/content/images/a.jpg" "EACCES: permission denied"
      rfl rfl rfl).2

/-- C6 counterexample: the claim describes the tag list as a *set* union; the
code builds `[...photo.tags.split(' '), 'flickr'].sort()` without
deduplication.  For tag string "flickr" the computed list is
`["flickr", "flickr"]`, not the sorted set `["flickr"]`, and with no existing
Ghost tags the run issues the create-tag call twice for the same name and the
post carries the duplicated list. -/
theorem spec_c6_counterexample :
    computeTags photoFlickrTag.tags = ["flickr", "flickr"] ∧
    specTagSet photoFlickrTag.tags = ["flickr"] ∧
    computeTags photoFlickrTag.tags ≠ specTagSet photoFlickrTag.tags ∧
    ((processPhoto envTagDup photoFlickrTag Trace.empty).1).tagAdds =
      ["flickr", "flickr"] ∧
    ((processPhoto envTagDup photoFlickrTag Trace.empty).1).posts.map Post.tags =
      [["flickr", "flickr"]] :=
  ⟨by decide, by decide, by decide, rfl, rfl⟩

/-- C6 (amended): the tag list is the ascending-sorted concatenation of the
whitespace-split tokens and one "flickr" element, retaining duplicates (it
equals the sorted set union exactly when the tokens are distinct and do not
already include "flickr"); a create-tag call is issued, in list order, for
each element not present among the Publishing Platform's listed tag names;
the created post carries exactly this sorted list.  The specification's
example holds: tag string "beach sunset" with existing tags
["beach", "flickr"] creates only "sunset" and posts
["beach", "flickr", "sunset"]. -/
theorem spec_c6_tags (env : Env) (photo : Photo) (tr : Trace)
    (cs : Option PhotoStatus) (gts : List String) (hosted d : String)
    (hget : env.getStatus photo.id = Except.ok cs) (hs : statusSuccess cs = false)
    (hdesc : photo.description = some d)
    (hhttp : env.httpGet photo.url_o = Except.ok ())
    (hup : env.uploadImage (tmpDest photo.url_o) = Except.ok hosted)
    (hun : env.unlink (tmpDest photo.url_o) = Except.ok ())
    (hbt : env.browseTags = Except.ok gts)
    (hat : ∀ s, env.addTag s = Except.ok ())
    (hap : ∀ p, env.addPost p = Except.ok ())
    (hset : ∀ st, env.setStatus photo.id st = Except.ok ()) :
    ((processPhoto env photo tr).1).tagAdds =
      tr.tagAdds ++ (computeTags photo.tags).filter (fun s => !(gts.contains s)) ∧
    ((processPhoto env photo tr).1).posts = tr.posts ++ [ghostPost env photo d hosted] ∧
    (ghostPost env photo d hosted).tags = computeTags photo.tags ∧
    List.Sorted jsLe (computeTags photo.tags) ∧
    List.Perm (computeTags photo.tags) (splitChar ' ' photo.tags ++ ["flickr"]) ∧
    computeTags "beach sunset" = ["beach", "flickr", "sunset"] ∧
    (computeTags "beach sunset").filter
      (fun s => !(List.contains ["beach", "flickr"] s)) = ["sunset"] := by
  rw [processPhoto_success env photo tr cs gts hosted d hget hs hdesc hhttp hup hun hbt hat
    hap hset]
  exact ⟨rfl, rfl, rfl, computeTags_sorted _, computeTags_perm _, by decide, by decide⟩

theorem spec_c6_tags_witness :
    ((processPhoto envOk photoA Trace.empty).1).tagAdds = ["sunset"] ∧
    ((processPhoto envOk photoA Trace.empty).1).posts.map Post.tags =
      [["beach", "flickr", "sunset"]] := by
  have h := spec_c6_tags envOk photoA Trace.empty none ["beach", "flickr"]
    "https://ghost.example/content/images/a.jpg" "photo a" rfl rfl rfl rfl rfl rfl rfl
    (fun _ => rfl) (fun _ => rfl) (fun _ => rfl)
  refine ⟨?_, ?_⟩
  · rw [h.1]
    decide
  · rw [h.2.1]
    decide

/-- C8: for a non-skipped photo whose sub-steps all succeed, the post
submitted to the Publishing Platform has the photo's title, the description
wrapped as `<p>…</p>`, status "published", the computed tag list, the hosted
image URL returned by the upload as feature image, and `published_at` equal to
the library's ISO-8601 rendering of `dateupload * 1000` milliseconds. -/
theorem spec_c8_post_body (env : Env) (photo : Photo) (tr : Trace)
    (cs : Option PhotoStatus) (gts : List String) (hosted d : String)
    (hget : env.getStatus photo.id = Except.ok cs) (hs : statusSuccess cs = false)
    (hdesc : photo.description = some d)
    (hhttp : env.httpGet photo.url_o = Except.ok ())
    (hup : env.uploadImage (tmpDest photo.url_o) = Except.ok hosted)
    (hun : env.unlink (tmpDest photo.url_o) = Except.ok ())
    (hbt : env.browseTags = Except.ok gts)
    (hat : ∀ s, env.addTag s = Except.ok ())
    (hap : ∀ p, env.addPost p = Except.ok ())
    (hset : ∀ st, env.setStatus photo.id st = Except.ok ()) :
    ((processPhoto env photo tr).1).posts = tr.posts ++
      [{ title := photo.title
         html := "<p>" ++ d ++ "</p>"
         status := "published"
         tags := computeTags photo.tags
         feature_image := hosted
         published_at := env.toISOString (photo.dateupload * 1000) }] := by
  rw [processPhoto_success env photo tr cs gts hosted d hget hs hdesc hhttp hup hun hbt hat
    hap hset]
  exact rfl

theorem spec_c8_post_body_witness :
    ((processPhoto envOk photoA Trace.empty).1).posts =
      [{ title := "A"
         html := "<p>photo a</p>"
         status := "published"
         tags := ["beach", "flickr", "sunset"]
         feature_image := "https://ghost.example/content/images/a.jpg"
         published_at := "2022-04-15T05:20:00.000Z" }] := by
  rw [spec_c8_post_body envOk photoA Trace.empty none ["beach", "flickr"]
    "https://ghost.example/content/images/a.jpg" "photo a" rfl rfl rfl rfl rfl rfl rfl
    (fun _ => rfl) (fun _ => rfl) (fun _ => rfl)]
  decide
